import Mathlib

/-!
Shallow embedding of `src/src/weather/weather.service.ts` (repository
`arovil7777/weather-api`): a NestJS service exposing current-weather and
five-day-forecast operations over the OpenWeatherMap API, with a
cache-aside layer.

Modelling conventions:
* Raw numeric payload fields are exact decimals `m / 10^e` (`JSNum`);
  JavaScript's `Number.prototype.toFixed(2)` and default number-to-string
  rendering are modelled on these exact decimals with integer arithmetic.
* The locale string produced by `Date.prototype.toLocaleString` for
  sunrise/sunset is abstracted to the record of rendered clock components
  (`ClockTime`); the system timezone is modelled as a fixed offset in
  seconds (`off`), threaded through every function that reads or writes
  local date fields.
* Forecast timestamps (`dt_txt`) are parsed and re-rendered in the same
  (local) timezone, so they are modelled as a record of date-time
  components with deterministic renderings.
* The cache store (`cache-manager`) is a key-value map with TTL expiry;
  `get` on an expired or absent key yields `none`.  Because the store is
  untyped (`get` returns `any`) and the service guards a hit with the JS
  truthiness test `if (cachedWeather)`, the modelled value type
  `CacheVal` also carries a falsy JS value (`jsNull`) besides the two
  object shapes the service itself stores.
* Thrown JS exceptions are modelled with `Except`.
-/

/-- An exact decimal number `m / 10 ^ e`, modelling the numeric fields of
the provider payloads (JS numbers used at decimal magnitudes where the
double representation reproduces decimal rounding). -/
structure JSNum where
  m : Int
  e : Nat
deriving DecidableEq

/-- Left-pad a numeral string with zeros to the given length. -/
def padLeftZeros (s : String) (len : Nat) : String :=
  String.mk (List.replicate (len - s.length) '0') ++ s

/-- Two-digit rendering of a natural number below 100. -/
def pad2 (n : Nat) : String :=
  if n < 10 then "0" ++ toString n else toString n

/-- Remove trailing decimal zeros from a mantissa/exponent pair. -/
def stripZeros : Int → Nat → Int × Nat
  | m, 0 => (m, 0)
  | m, e + 1 => if m % 10 = 0 then stripZeros (m / 10) e else (m, e + 1)

/-- JavaScript default number-to-string rendering on exact decimals:
the shortest decimal form, e.g. `0.5 ↦ "0.5"`, `0 ↦ "0"`,
`21.456 ↦ "21.456"`. -/
def jsToString (x : JSNum) : String :=
  let p := stripZeros x.m x.e
  if p.2 = 0 then toString p.1
  else
    let sign := if p.1 < 0 then "-" else ""
    let n := p.1.natAbs
    sign ++ toString (n / 10 ^ p.2) ++ "." ++ padLeftZeros (toString (n % 10 ^ p.2)) p.2

/-- `Number.prototype.toFixed(2)`: the integer `n` for which `n / 100` is
closest to the value, ties towards the larger `n`, rendered with exactly
two digits after the decimal point. -/
def toFixed2 (x : JSNum) : String :=
  let d : Int := (10 : Int) ^ x.e
  let n : Int := Int.fdiv (200 * x.m + d) (2 * d)
  let sign := if n < 0 then "-" else ""
  sign ++ toString (n.natAbs / 100) ++ "." ++ pad2 (n.natAbs % 100)

/-- The JS expression `v || 0` applied to an optional numeric field read
off an optionally-present sub-object (`rain = {}` destructuring default
followed by `rain["1h"]`): absent, or present and falsy (zero), yields 0. -/
def jsOrZero (o : Option JSNum) : JSNum :=
  match o with
  | some v => if v.m = 0 then ⟨0, 0⟩ else v
  | none => ⟨0, 0⟩

/-- Rendered clock components of a `Date`, abstracting the
`toLocaleString` output for sunrise/sunset: day index since the epoch and
hour/minute/second fields. -/
structure ClockTime where
  day : Int
  hour : Int
  minute : Int
  second : Int
deriving DecidableEq

/-- Clock components of an absolute time `t` (seconds). -/
def clockOf (t : Int) : ClockTime :=
  ⟨Int.fdiv t 86400, Int.emod (Int.fdiv t 3600) 24, Int.emod (Int.fdiv t 60) 60, Int.emod t 60⟩

/-- `Date.prototype.getHours()` under system timezone offset `off`
(seconds east of UTC): the local hour field, in `0..23`. -/
def getHoursLocal (off t : Int) : Int :=
  Int.emod (Int.fdiv (t + off) 3600) 24

/-- `Date.prototype.setHours(h)` under system timezone offset `off`: the
new absolute time whose local hour field is `h` (values outside `0..23`
roll the date over), other fields unchanged. -/
def jsSetHours (off t h : Int) : Int :=
  t + (h - getHoursLocal off t) * 3600

/-- The statement `date.setHours(date.getHours() + 9)` from
`formatUnixTime` (source line 159). -/
def addNineHours (off t : Int) : Int :=
  jsSetHours off t (getHoursLocal off t + 9)

/-- `Date.prototype.toLocaleString()` under system timezone offset `off`,
abstracted to the rendered clock components. -/
def renderLocal (off t : Int) : ClockTime :=
  clockOf (t + off)

/-- `WeatherService.formatUnixTime` (source lines 157-161): build a `Date`
from provider Unix seconds, add 9 to its local hours field, and render it
with `toLocaleString` — all relative to the system timezone offset
`off`. -/
def formatUnixTime (off ts : Int) : ClockTime :=
  renderLocal off (addNineHours off ts)

/-- Date-time components of a forecast item's `dt_txt` field
("YYYY-MM-DD HH:MM:SS"), which `new Date(dt_txt)` parses in the local
timezone. -/
structure DtTxt where
  year : Nat
  month : Nat
  dayOfMonth : Nat
  hour : Nat
  minute : Nat
  second : Nat
deriving DecidableEq

/-- `new Date(dt_txt).toLocaleDateString()`: the calendar-date string of
the parsed timestamp (parsing and rendering share the local timezone, so
the wall-clock fields round-trip); rendered in the `M/D/YYYY` convention
of the default locale. -/
def dtDateKey (d : DtTxt) : String :=
  toString d.month ++ "/" ++ toString d.dayOfMonth ++ "/" ++ toString d.year

/-- `new Date(dt_txt).toLocaleString()`: date and time of the parsed
timestamp, same round-trip remark as `dtDateKey`. -/
def dtLocaleString (d : DtTxt) : String :=
  dtDateKey d ++ ", " ++ toString d.hour ++ ":" ++ pad2 d.minute ++ ":" ++ pad2 d.second

/-- One element of the provider's `weather` condition list. -/
structure RawCond where
  main : String
  description : String
  icon : String
deriving DecidableEq

/-- The provider's `main` block of numeric readings. -/
structure RawMain where
  temp : JSNum
  feels_like : JSNum
  humidity : JSNum
  temp_min : JSNum
  temp_max : JSNum
deriving DecidableEq

/-- The provider's `wind` block. -/
structure RawWind where
  speed : JSNum
deriving DecidableEq

/-- The provider's `sys` block (Unix seconds). -/
structure RawSys where
  sunrise : Int
  sunset : Int
deriving DecidableEq

/-- Raw current-weather payload (`response.data` of the `/weather`
endpoint) as destructured by `formatWeatherData`.  `rain1h` models
`rain["1h"]` through the `rain = {}` destructuring default: `none` when
the sub-object or the field is absent. -/
structure RawCurrent where
  weather : List RawCond
  main : RawMain
  wind : RawWind
  rain1h : Option JSNum
  snow1h : Option JSNum
  sys : RawSys
deriving DecidableEq

/-- Raw three-hour forecast item (an element of `response.data.list` of
the `/forecast` endpoint) as destructured by `formatForecastData`. -/
structure RawForecastItem where
  weather : List RawCond
  main : RawMain
  wind : RawWind
  rain1h : Option JSNum
  snow1h : Option JSNum
  dt_txt : DtTxt
deriving DecidableEq

/-- The client-facing current-weather report built by
`formatWeatherData` (source lines 100-117). -/
structure Report where
  weatherStatus : String
  detailWeatherStatus : String
  currentTemp : String
  apparentTemp : String
  currentHumi : String
  minTemp : String
  maxTemp : String
  windSpeed : String
  rainfall : String
  snowfall : String
  sunriseTime : ClockTime
  sunsetTime : ClockTime
  icon : String
deriving DecidableEq

/-- The client-facing forecast entry built by `formatForecastData`
(source lines 122-138). -/
structure ForecastEntry where
  forecastTime : String
  weatherStatus : String
  detailWeatherStatus : String
  currentTemp : String
  apparentTemp : String
  currentHumi : String
  minTemp : String
  maxTemp : String
  windSpeed : String
  rainfall : String
  snowfall : String
  icon : String
deriving DecidableEq

/-- A NestJS `HttpException`: response message and HTTP status code. -/
structure HttpException where
  message : String
  status : Nat
deriving DecidableEq

/-- A thrown JS error: either an `HttpException`, or the `TypeError`
raised by reading a property of `undefined` (e.g. `weather[0].main` on an
empty condition list). -/
inductive JsError where
  | http : HttpException → JsError
  | typeError : JsError
deriving DecidableEq

/-- `WeatherService.formatWeatherData` (source lines 100-117). Reading
`weather[0].main` on an empty condition list throws a `TypeError`. -/
def formatWeatherData (off : Int) (data : RawCurrent) : Except JsError Report :=
  match data.weather with
  | [] => Except.error JsError.typeError
  | w :: _ =>
    Except.ok
      { weatherStatus := w.main
        detailWeatherStatus := w.description
        currentTemp := toFixed2 data.main.temp ++ "℃"
        apparentTemp := toFixed2 data.main.feels_like ++ "℃"
        currentHumi := jsToString data.main.humidity ++ "%"
        minTemp := toFixed2 data.main.temp_min ++ "℃"
        maxTemp := toFixed2 data.main.temp_max ++ "℃"
        windSpeed := toFixed2 data.wind.speed ++ "m/s"
        rainfall := jsToString (jsOrZero data.rain1h) ++ "mm/h"
        snowfall := jsToString (jsOrZero data.snow1h) ++ "mm/h"
        sunriseTime := formatUnixTime off data.sys.sunrise
        sunsetTime := formatUnixTime off data.sys.sunset
        icon := w.icon }

/-- `WeatherService.formatForecastData` (source lines 122-138). -/
def formatForecastData (item : RawForecastItem) : Except JsError ForecastEntry :=
  match item.weather with
  | [] => Except.error JsError.typeError
  | w :: _ =>
    Except.ok
      { forecastTime := dtLocaleString item.dt_txt
        weatherStatus := w.main
        detailWeatherStatus := w.description
        currentTemp := toFixed2 item.main.temp ++ "℃"
        apparentTemp := toFixed2 item.main.feels_like ++ "℃"
        currentHumi := jsToString item.main.humidity ++ "%"
        minTemp := toFixed2 item.main.temp_min ++ "℃"
        maxTemp := toFixed2 item.main.temp_max ++ "℃"
        windSpeed := toFixed2 item.wind.speed ++ "m/s"
        rainfall := jsToString (jsOrZero item.rain1h) ++ "mm/h"
        snowfall := jsToString (jsOrZero item.snow1h) ++ "mm/h"
        icon := w.icon }

/-- The grouped five-day forecast: an insertion-ordered association of
calendar-date keys to entry lists, modelling the JS object accumulated by
`groupForecastByDate` (plain-object string keys that are not array
indices — these date strings contain `/` — enumerate in insertion
order). -/
abbrev GroupedForecast := List (String × List ForecastEntry)

/-- The statements `if (!acc[d]) acc[d] = []; acc[d].push(e)` of the
reduce body: append `e` to the sequence at key `k`, creating the key at
the end on first occurrence. -/
def insertEntry (acc : GroupedForecast) (k : String) (e : ForecastEntry) : GroupedForecast :=
  match acc with
  | [] => [(k, [e])]
  | (k0, es) :: rest =>
    if k0 = k then (k0, es ++ [e]) :: rest else (k0, es) :: insertEntry rest k e

/-- The `reduce` loop of `groupForecastByDate`, threading the accumulator
object; a `TypeError` thrown by `formatForecastData` aborts the whole
fold (the exception propagates out of `reduce`). -/
def groupAux (acc : GroupedForecast) : List RawForecastItem → Except JsError GroupedForecast
  | [] => Except.ok acc
  | i :: rest =>
    match formatForecastData i with
    | Except.error e => Except.error e
    | Except.ok entry => groupAux (insertEntry acc (dtDateKey i.dt_txt) entry) rest

/-- `WeatherService.groupForecastByDate` (source lines 143-152). -/
def groupForecastByDate (items : List RawForecastItem) : Except JsError GroupedForecast :=
  groupAux [] items

/-- The value sequence stored under key `k` of a grouped forecast
(`[]` when the key is absent). -/
def valsAt (g : GroupedForecast) (k : String) : List ForecastEntry :=
  (Option.map Prod.snd (g.find? (fun p => p.1 == k))).getD []

/-- First-occurrence deduplication of a key list: the enumeration order
of the keys of a JS object built by in-order insertion. -/
def firstOccur : List String → List String
  | [] => []
  | x :: xs => x :: (firstOccur xs).filter (fun d => d ≠ x)

/-- A coordinate pair from the geocoding response (`{ lat, lon }`). -/
structure Coord where
  lat : JSNum
  lon : JSNum
deriving DecidableEq

/-- The upstream collaborators, as response-producing functions: the
geocoding endpoint's result list for a city name, and the current/forecast
endpoints' outcomes per coordinate (`Except.error` is a transport or
non-success-HTTP failure of the underlying `HttpService.get`). -/
structure Env where
  geocode : String → List Coord
  current : Coord → Except Unit RawCurrent
  forecast : Coord → Except Unit (List RawForecastItem)

/-- `HttpException("도시 정보를 찾을 수 없습니다.", HttpStatus.NOT_FOUND)`
thrown by `getCoordinatesByCity` (source line 32). -/
def cityNotFoundError : HttpException := ⟨"도시 정보를 찾을 수 없습니다.", 404⟩

/-- `HttpException("City not found", HttpStatus.NOT_FOUND)` thrown by
`fetchWeatherData` at the upstream boundary (source line 91). -/
def upstreamBoundaryError : HttpException := ⟨"City not found", 404⟩

/-- `HttpException("Failed to fetch weather data", INTERNAL_SERVER_ERROR)`
thrown by the catch block of `getWeatherByCity` (source line 58). -/
def weatherFetchFailedError : HttpException := ⟨"Failed to fetch weather data", 500⟩

/-- `HttpException("Failed to fetch forecast data", INTERNAL_SERVER_ERROR)`
thrown by the catch block of `getFiveDayForecast` (source line 79). -/
def forecastFetchFailedError : HttpException := ⟨"Failed to fetch forecast data", 500⟩

/-- `WeatherService.getCoordinatesByCity` (source lines 27-37): empty
geocoding result throws the not-found `HttpException`; otherwise the
first match's coordinates are returned. -/
def getCoordinatesByCity (env : Env) (city : String) : Except JsError Coord :=
  match env.geocode city with
  | [] => Except.error (JsError.http cityNotFoundError)
  | c :: _ => Except.ok c

/-- `WeatherService.fetchWeatherData` (source lines 86-95): a failing
upstream GET is caught and re-thrown as
`HttpException("City not found", 404)`; a successful response passes
through unchanged. -/
def fetchWeatherData {α : Type} (r : Except Unit α) : Except JsError α :=
  match r with
  | Except.error _ => Except.error (JsError.http upstreamBoundaryError)
  | Except.ok a => Except.ok a

/-- A value held in the cache store.  The store is untyped; the service
itself only ever stores the two object shapes, but the model also admits
a falsy JS value (`jsNull`) because the hit guard in the source is the
truthiness test `if (cachedWeather)`. -/
inductive CacheVal where
  | report : Report → CacheVal
  | grouped : GroupedForecast → CacheVal
  | jsNull : CacheVal
deriving DecidableEq

/-- JS truthiness of a cached value: the object shapes are truthy,
`jsNull` is falsy. -/
def CacheVal.truthy : CacheVal → Bool
  | CacheVal.jsNull => false
  | _ => true

/-- A stored cache record: value plus absolute expiry time
(store time + TTL). -/
structure CacheEntry where
  val : CacheVal
  expiry : Int
deriving DecidableEq

/-- The cache store contents, newest binding first (a `set` shadows any
older binding of the same key). -/
abbrev Cache := List (String × CacheEntry)

/-- `cacheManager.get(key)` at time `now`: the stored value when the key
is present and not expired, otherwise `undefined` (`none`). -/
def cacheGet (c : Cache) (now : Int) (key : String) : Option CacheVal :=
  match c.find? (fun p => p.1 == key) with
  | some p => if now < p.2.expiry then some p.2.val else none
  | none => none

/-- `cacheManager.set(key, v, ttl)` at time `now`. -/
def cacheSet (c : Cache) (key : String) (v : CacheVal) (now ttl : Int) : Cache :=
  (key, ⟨v, now + ttl⟩) :: c

/-- `WeatherService.cacheTTL` (source line 13). -/
def cacheTTL : Int := 300

/-- Outcome of one operation call: the returned value or thrown error,
the cache contents afterwards, and how many times each upstream
collaborator (geocoding endpoint; weather/forecast endpoint) was invoked
during the call. -/
structure OpResult where
  result : Except JsError CacheVal
  cache : Cache
  geocodeCalls : Nat
  fetchCalls : Nat

/-- The try-block body of `getWeatherByCity` before the cache write:
fetch the current payload through `fetchWeatherData`, then format it. -/
def weatherCompute (env : Env) (off : Int) (coord : Coord) : Except JsError Report :=
  match fetchWeatherData (env.current coord) with
  | Except.error e => Except.error e
  | Except.ok data => formatWeatherData off data

/-- The body of `getWeatherByCity` after a cache miss (source lines
49-59): geocode (outside the try block — its error propagates as-is),
then fetch + format inside try; any error there is caught and re-thrown
as the generic 500, and the cache is only written on success. -/
def weatherMiss (env : Env) (off now : Int) (city : String) (c : Cache) (cacheKey : String) :
    OpResult :=
  match getCoordinatesByCity env city with
  | Except.error e => ⟨Except.error e, c, 1, 0⟩
  | Except.ok coord =>
    match weatherCompute env off coord with
    | Except.error _ => ⟨Except.error (JsError.http weatherFetchFailedError), c, 1, 1⟩
    | Except.ok r =>
      ⟨Except.ok (CacheVal.report r), cacheSet c cacheKey (CacheVal.report r) now cacheTTL, 1, 1⟩

/-- `WeatherService.getWeatherByCity` (source lines 42-60): cache-aside
over key `weather_{city}`; the hit guard is the truthiness test
`if (cachedWeather)`. -/
def getWeatherByCity (env : Env) (off now : Int) (city : String) (c : Cache) : OpResult :=
  match cacheGet c now ("weather_" ++ city) with
  | some v =>
    if v.truthy then ⟨Except.ok v, c, 0, 0⟩
    else weatherMiss env off now city c ("weather_" ++ city)
  | none => weatherMiss env off now city c ("weather_" ++ city)

/-- The try-block body of `getFiveDayForecast` before the cache write:
fetch the forecast list through `fetchWeatherData`, then group it. -/
def forecastCompute (env : Env) (coord : Coord) : Except JsError GroupedForecast :=
  match fetchWeatherData (env.forecast coord) with
  | Except.error e => Except.error e
  | Except.ok items => groupForecastByDate items

/-- The body of `getFiveDayForecast` after a cache miss (source lines
69-80), mirroring `weatherMiss`. -/
def forecastMiss (env : Env) (now : Int) (city : String) (c : Cache) (cacheKey : String) :
    OpResult :=
  match getCoordinatesByCity env city with
  | Except.error e => ⟨Except.error e, c, 1, 0⟩
  | Except.ok coord =>
    match forecastCompute env coord with
    | Except.error _ => ⟨Except.error (JsError.http forecastFetchFailedError), c, 1, 1⟩
    | Except.ok g =>
      ⟨Except.ok (CacheVal.grouped g), cacheSet c cacheKey (CacheVal.grouped g) now cacheTTL, 1, 1⟩

/-- `WeatherService.getFiveDayForecast` (source lines 62-81): cache-aside
over key `forecast_{city}`. -/
def getFiveDayForecast (env : Env) (_off now : Int) (city : String) (c : Cache) : OpResult :=
  match cacheGet c now ("forecast_" ++ city) with
  | some v =>
    if v.truthy then ⟨Except.ok v, c, 0, 0⟩
    else forecastMiss env now city c ("forecast_" ++ city)
  | none => forecastMiss env now city c ("forecast_" ++ city)

/-- One inbound request: which operation, for which city, at what time. -/
inductive CallSpec where
  | weather (city : String) (now : Int)
  | forecast (city : String) (now : Int)

/-- Cache contents after serving one request. -/
def applyCall (env : Env) (off : Int) (c : Cache) : CallSpec → Cache
  | CallSpec.weather city now => (getWeatherByCity env off now city c).cache
  | CallSpec.forecast city now => (getFiveDayForecast env off now city c).cache

/-- Cache contents after serving a sequence of requests. -/
def runCalls (env : Env) (off : Int) : List CallSpec → Cache → Cache
  | [], c => c
  | k :: rest, c => runCalls env off rest (applyCall env off c k)

/-- A cache binding is well-typed when a `weather_`-prefixed key holds a
current-weather report and a `forecast_`-prefixed key holds a grouped
forecast. -/
def wellTypedPair (p : String × CacheEntry) : Prop :=
  ((∃ city, p.1 = "weather_" ++ city) → ∃ r, p.2.val = CacheVal.report r) ∧
  ((∃ city, p.1 = "forecast_" ++ city) → ∃ g, p.2.val = CacheVal.grouped g)

/-- Every binding of the cache is well-typed. -/
def cacheWellTyped (c : Cache) : Prop :=
  ∀ p ∈ c, wellTypedPair p

/-! Concrete scenario data, used to instantiate the theorems below. -/

/-- Seoul's coordinates as returned by the geocoding endpoint. -/
def coordSeoul : Coord := ⟨⟨375665, 4⟩, ⟨1269780, 4⟩⟩

/-- A weather-condition element. -/
def condClear : RawCond := ⟨"Clear", "맑음", "01d"⟩

/-- A `main` block with `temp = 21.456` and `humidity = 60`. -/
def mainSeoul : RawMain := ⟨⟨21456, 3⟩, ⟨20120, 3⟩, ⟨60, 0⟩, ⟨19000, 3⟩, ⟨23000, 3⟩⟩

/-- Current-weather payload for the Seoul scenario: `temp = 21.456`,
`humidity = 60`, no rain/snow sub-objects. -/
def rawSeoul : RawCurrent := ⟨[condClear], mainSeoul, ⟨⟨312, 2⟩⟩, none, none, ⟨1714500000, 1714550000⟩⟩

/-- The Seoul payload with a rain sub-object carrying `"1h": 0.5`. -/
def rawRainy : RawCurrent := ⟨[condClear], mainSeoul, ⟨⟨312, 2⟩⟩, some ⟨5, 1⟩, none, ⟨1714500000, 1714550000⟩⟩

/-- A payload whose weather-condition list is empty. -/
def rawNoCond : RawCurrent := ⟨[], mainSeoul, ⟨⟨312, 2⟩⟩, none, none, ⟨1714500000, 1714550000⟩⟩

/-- A forecast item dated by the given timestamp. -/
def itemOf (d : DtTxt) : RawForecastItem := ⟨[condClear], mainSeoul, ⟨⟨312, 2⟩⟩, none, none, d⟩

/-- Three forecast items: two on 2024-05-01, one on 2024-05-02. -/
def forecastItems : List RawForecastItem :=
  [itemOf ⟨2024, 5, 1, 0, 0, 0⟩, itemOf ⟨2024, 5, 1, 3, 0, 0⟩, itemOf ⟨2024, 5, 2, 0, 0, 0⟩]

/-- Collaborators that all succeed. -/
def envOk : Env :=
  ⟨fun _ => [coordSeoul], fun _ => Except.ok rawSeoul, fun _ => Except.ok forecastItems⟩

/-- Collaborators whose geocoding endpoint returns an empty result set. -/
def envGeoEmpty : Env := ⟨fun _ => [], fun _ => Except.error (), fun _ => Except.error ()⟩

/-- Collaborators that geocode successfully but whose weather/forecast
endpoints fail. -/
def envFetchFail : Env := ⟨fun _ => [coordSeoul], fun _ => Except.error (), fun _ => Except.error ()⟩

/-- Collaborators whose current-weather endpoint returns a payload with
an empty weather-condition list. -/
def envNoCond : Env := ⟨fun _ => [coordSeoul], fun _ => Except.ok rawNoCond, fun _ => Except.error ()⟩

/-- A cache holding a present, non-expired, falsy value under the
Seoul weather key. -/
def cacheNullSeoul : Cache := [("weather_Seoul", ⟨CacheVal.jsNull, 10⟩)]

/-- The report `formatWeatherData` produces from `rawSeoul` at system
timezone offset 0. -/
def reportSeoul : Report :=
  { weatherStatus := "Clear", detailWeatherStatus := "맑음", currentTemp := "21.46℃",
    apparentTemp := "20.12℃", currentHumi := "60%", minTemp := "19.00℃", maxTemp := "23.00℃",
    windSpeed := "3.12m/s", rainfall := "0mm/h", snowfall := "0mm/h",
    sunriseTime := formatUnixTime 0 1714500000, sunsetTime := formatUnixTime 0 1714550000,
    icon := "01d" }

/-- The report `formatWeatherData` produces from `rawRainy` at system
timezone offset 0: as `reportSeoul` but with `rainfall = "0.5mm/h"`. -/
def reportRainy : Report :=
  { weatherStatus := "Clear", detailWeatherStatus := "맑음", currentTemp := "21.46℃",
    apparentTemp := "20.12℃", currentHumi := "60%", minTemp := "19.00℃", maxTemp := "23.00℃",
    windSpeed := "3.12m/s", rainfall := "0.5mm/h", snowfall := "0mm/h",
    sunriseTime := formatUnixTime 0 1714500000, sunsetTime := formatUnixTime 0 1714550000,
    icon := "01d" }

/-- The forecast entry `formatForecastData` produces from `itemOf d`. -/
def entryOf (d : DtTxt) : ForecastEntry :=
  ⟨dtLocaleString d, "Clear", "맑음", "21.46℃", "20.12℃", "60%", "19.00℃", "23.00℃",
    "3.12m/s", "0mm/h", "0mm/h", "01d"⟩

/-- The grouped forecast built from `forecastItems`: two keys in
first-occurrence order, the first with two entries in input order. -/
def groupedSeoul : GroupedForecast :=
  [("5/1/2024", [entryOf ⟨2024, 5, 1, 0, 0, 0⟩, entryOf ⟨2024, 5, 1, 3, 0, 0⟩]),
   ("5/2/2024", [entryOf ⟨2024, 5, 2, 0, 0, 0⟩])]

/-! Helper lemmas about the cache-aside orchestration. -/

theorem getWeatherByCity_hit (env : Env) (off now : Int) (city : String) (c : Cache)
    (v : CacheVal) (h : cacheGet c now ("weather_" ++ city) = some v) (ht : v.truthy = true) :
    getWeatherByCity env off now city c = ⟨Except.ok v, c, 0, 0⟩ := by
  simp [getWeatherByCity, h, ht]

theorem getWeatherByCity_miss (env : Env) (off now : Int) (city : String) (c : Cache)
    (h : cacheGet c now ("weather_" ++ city) = none) :
    getWeatherByCity env off now city c = weatherMiss env off now city c ("weather_" ++ city) := by
  simp [getWeatherByCity, h]

theorem getFiveDayForecast_hit (env : Env) (off now : Int) (city : String) (c : Cache)
    (v : CacheVal) (h : cacheGet c now ("forecast_" ++ city) = some v) (ht : v.truthy = true) :
    getFiveDayForecast env off now city c = ⟨Except.ok v, c, 0, 0⟩ := by
  simp [getFiveDayForecast, h, ht]

theorem getFiveDayForecast_miss (env : Env) (off now : Int) (city : String) (c : Cache)
    (h : cacheGet c now ("forecast_" ++ city) = none) :
    getFiveDayForecast env off now city c = forecastMiss env now city c ("forecast_" ++ city) := by
  simp [getFiveDayForecast, h]

theorem weatherMiss_geoEmpty (env : Env) (off now : Int) (city : String) (c : Cache)
    (k : String) (hg : env.geocode city = []) :
    weatherMiss env off now city c k = ⟨Except.error (JsError.http cityNotFoundError), c, 1, 0⟩ := by
  simp [weatherMiss, getCoordinatesByCity, hg]

theorem weatherMiss_computeError (env : Env) (off now : Int) (city : String) (c : Cache)
    (k : String) (coord : Coord) (rest : List Coord) (hg : env.geocode city = coord :: rest)
    (hw : ∃ e, weatherCompute env off coord = Except.error e) :
    weatherMiss env off now city c k =
      ⟨Except.error (JsError.http weatherFetchFailedError), c, 1, 1⟩ := by
  obtain ⟨e, he⟩ := hw
  simp [weatherMiss, getCoordinatesByCity, hg, he]

theorem weatherMiss_success (env : Env) (off now : Int) (city : String) (c : Cache)
    (k : String) (coord : Coord) (rest : List Coord) (r : Report)
    (hg : env.geocode city = coord :: rest) (hr : weatherCompute env off coord = Except.ok r) :
    weatherMiss env off now city c k =
      ⟨Except.ok (CacheVal.report r), cacheSet c k (CacheVal.report r) now cacheTTL, 1, 1⟩ := by
  simp [weatherMiss, getCoordinatesByCity, hg, hr]

theorem weatherMiss_result_ok (env : Env) (off now : Int) (city : String) (c : Cache)
    (k : String) (v : CacheVal) (h : (weatherMiss env off now city c k).result = Except.ok v) :
    ∃ r, v = CacheVal.report r ∧
      weatherMiss env off now city c k =
        ⟨Except.ok (CacheVal.report r), cacheSet c k (CacheVal.report r) now cacheTTL, 1, 1⟩ := by
  cases hg : getCoordinatesByCity env city with
  | error e => simp [weatherMiss, hg] at h
  | ok coord =>
    cases hr : weatherCompute env off coord with
    | error e => simp [weatherMiss, hg, hr] at h
    | ok r =>
      refine ⟨r, ?_, ?_⟩ <;> simp [weatherMiss, hg, hr] at h ⊢
      exact h.symm

theorem forecastMiss_geoEmpty (env : Env) (now : Int) (city : String) (c : Cache)
    (k : String) (hg : env.geocode city = []) :
    forecastMiss env now city c k = ⟨Except.error (JsError.http cityNotFoundError), c, 1, 0⟩ := by
  simp [forecastMiss, getCoordinatesByCity, hg]

theorem forecastMiss_computeError (env : Env) (now : Int) (city : String) (c : Cache)
    (k : String) (coord : Coord) (rest : List Coord) (hg : env.geocode city = coord :: rest)
    (hw : ∃ e, forecastCompute env coord = Except.error e) :
    forecastMiss env now city c k =
      ⟨Except.error (JsError.http forecastFetchFailedError), c, 1, 1⟩ := by
  obtain ⟨e, he⟩ := hw
  simp [forecastMiss, getCoordinatesByCity, hg, he]

theorem forecastMiss_result_ok (env : Env) (now : Int) (city : String) (c : Cache)
    (k : String) (v : CacheVal) (h : (forecastMiss env now city c k).result = Except.ok v) :
    ∃ g, v = CacheVal.grouped g ∧
      forecastMiss env now city c k =
        ⟨Except.ok (CacheVal.grouped g), cacheSet c k (CacheVal.grouped g) now cacheTTL, 1, 1⟩ := by
  cases hg : getCoordinatesByCity env city with
  | error e => simp [forecastMiss, hg] at h
  | ok coord =>
    cases hr : forecastCompute env coord with
    | error e => simp [forecastMiss, hg, hr] at h
    | ok g =>
      refine ⟨g, ?_, ?_⟩ <;> simp [forecastMiss, hg, hr] at h ⊢
      exact h.symm

theorem cacheGet_after_set (c : Cache) (key : String) (v : CacheVal) (t1 t2 ttl : Int)
    (h : t2 < t1 + ttl) :
    cacheGet (cacheSet c key v t1 ttl) t2 key = some v := by
  simp [cacheGet, cacheSet, List.find?, h]

/-! Claim C1: cache-aside hit behaviour. -/

/-- Claim C1, as stated, is false: the hit guard in both operations is
the JS truthiness test `if (cachedWeather)`, not a presence test.  Here
the cache holds a present, non-expired, falsy value under the weather
key, yet the compute path runs (the geocoder is invoked), contradicting
"the compute path runs only when the entry is literally absent". -/
theorem claim1_counterexample :
    cacheGet cacheNullSeoul 0 ("weather_" ++ "Seoul") = some CacheVal.jsNull ∧
    (0 : Int) < 10 ∧
    (getWeatherByCity envOk 0 0 "Seoul" cacheNullSeoul).geocodeCalls = 1 := by
  refine ⟨by decide, by decide, rfl⟩

/-- Claim C1 amended: the cache-aside lookup returns the cached value
directly, without invoking the compute path, whenever an entry is present
non-expired and truthy under the key; a present falsy value is treated
like an absent one.  (The values the service itself stores are always
objects, hence truthy.) -/
theorem claim1_hit_requires_truthy (env : Env) (off now : Int) (city : String) (c : Cache)
    (v : CacheVal) :
    (cacheGet c now ("weather_" ++ city) = some v → v.truthy = true →
      getWeatherByCity env off now city c = ⟨Except.ok v, c, 0, 0⟩) ∧
    (cacheGet c now ("forecast_" ++ city) = some v → v.truthy = true →
      getFiveDayForecast env off now city c = ⟨Except.ok v, c, 0, 0⟩) :=
  ⟨fun h ht => getWeatherByCity_hit env off now city c v h ht,
   fun h ht => getFiveDayForecast_hit env off now city c v h ht⟩

/-- Witness for the amended C1 at a concrete cache state containing a
truthy entry under each key. -/
theorem claim1_witness :
    getWeatherByCity envOk 0 0 "Seoul" [("weather_Seoul", ⟨CacheVal.grouped [], 100⟩)] =
      ⟨Except.ok (CacheVal.grouped []), [("weather_Seoul", ⟨CacheVal.grouped [], 100⟩)], 0, 0⟩ ∧
    getFiveDayForecast envOk 0 0 "Seoul" [("forecast_Seoul", ⟨CacheVal.grouped [], 100⟩)] =
      ⟨Except.ok (CacheVal.grouped []), [("forecast_Seoul", ⟨CacheVal.grouped [], 100⟩)], 0, 0⟩ :=
  ⟨(claim1_hit_requires_truthy envOk 0 0 "Seoul" _ (CacheVal.grouped [])).1 (by decide) (by decide),
   (claim1_hit_requires_truthy envOk 0 0 "Seoul" _ (CacheVal.grouped [])).2 (by decide) (by decide)⟩

/-! Claim C2: cache idempotence of two successive calls. -/

/-- Claim C2, as stated ("for every city ... at most once in total"), is
false: when geocoding yields an empty result set, nothing is cached
(failures are never cached), so two successive calls for that city invoke
the geocoding endpoint twice. -/
theorem claim2_counterexample :
    (getWeatherByCity envGeoEmpty 0 0 "Atlantis" []).geocodeCalls +
      (getWeatherByCity envGeoEmpty 0 1 "Atlantis"
        (getWeatherByCity envGeoEmpty 0 0 "Atlantis" []).cache).geocodeCalls = 2 ∧
    ¬ ((getWeatherByCity envGeoEmpty 0 0 "Atlantis" []).geocodeCalls +
      (getWeatherByCity envGeoEmpty 0 1 "Atlantis"
        (getWeatherByCity envGeoEmpty 0 0 "Atlantis" []).cache).geocodeCalls ≤ 1) := by
  constructor
  · rfl
  · decide

/-- Claim C2 amended: if the first call starts from a key miss and
succeeds, then a second call for the same city within the TTL window is a
pure cache hit — it returns the same value, leaves the cache unchanged and
invokes neither collaborator — while the first call invoked each
collaborator exactly once. -/
theorem claim2_second_call_hits (env : Env) (off : Int) (city : String) (c : Cache)
    (t1 t2 : Int) (v w : CacheVal) :
    (cacheGet c t1 ("weather_" ++ city) = none → t1 ≤ t2 → t2 < t1 + cacheTTL →
      (getWeatherByCity env off t1 city c).result = Except.ok v →
      getWeatherByCity env off t2 city (getWeatherByCity env off t1 city c).cache =
        ⟨Except.ok v, (getWeatherByCity env off t1 city c).cache, 0, 0⟩ ∧
      (getWeatherByCity env off t1 city c).geocodeCalls = 1 ∧
      (getWeatherByCity env off t1 city c).fetchCalls = 1) ∧
    (cacheGet c t1 ("forecast_" ++ city) = none → t1 ≤ t2 → t2 < t1 + cacheTTL →
      (getFiveDayForecast env off t1 city c).result = Except.ok w →
      getFiveDayForecast env off t2 city (getFiveDayForecast env off t1 city c).cache =
        ⟨Except.ok w, (getFiveDayForecast env off t1 city c).cache, 0, 0⟩ ∧
      (getFiveDayForecast env off t1 city c).geocodeCalls = 1 ∧
      (getFiveDayForecast env off t1 city c).fetchCalls = 1) := by
  constructor
  · intro h0 _hle hlt hres
    rw [getWeatherByCity_miss env off t1 city c h0] at hres
    obtain ⟨r, rfl, heq⟩ := weatherMiss_result_ok env off t1 city c _ v hres
    rw [getWeatherByCity_miss env off t1 city c h0, heq]
    refine ⟨?_, rfl, rfl⟩
    exact getWeatherByCity_hit env off t2 city _ _
      (cacheGet_after_set c _ _ t1 t2 cacheTTL hlt) rfl
  · intro h0 _hle hlt hres
    rw [getFiveDayForecast_miss env off t1 city c h0] at hres
    obtain ⟨g, rfl, heq⟩ := forecastMiss_result_ok env t1 city c _ w hres
    rw [getFiveDayForecast_miss env off t1 city c h0, heq]
    refine ⟨?_, rfl, rfl⟩
    exact getFiveDayForecast_hit env off t2 city _ _
      (cacheGet_after_set c _ _ t1 t2 cacheTTL hlt) rfl

/-- Witness for the amended C2: the Seoul scenario, first call at time 0
from the empty cache, second call at time 5. -/
theorem claim2_witness :
    (getWeatherByCity envOk 0 0 "Seoul" []).result = Except.ok (CacheVal.report reportSeoul) ∧
    getWeatherByCity envOk 0 5 "Seoul" (getWeatherByCity envOk 0 0 "Seoul" []).cache =
      ⟨Except.ok (CacheVal.report reportSeoul), (getWeatherByCity envOk 0 0 "Seoul" []).cache,
        0, 0⟩ ∧
    getFiveDayForecast envOk 0 5 "Seoul" (getFiveDayForecast envOk 0 0 "Seoul" []).cache =
      ⟨Except.ok (CacheVal.grouped groupedSeoul),
        (getFiveDayForecast envOk 0 0 "Seoul" []).cache, 0, 0⟩ :=
  ⟨rfl,
   ((claim2_second_call_hits envOk 0 "Seoul" [] 0 5 (CacheVal.report reportSeoul)
      (CacheVal.grouped groupedSeoul)).1 rfl (by decide) (by decide) rfl).1,
   ((claim2_second_call_hits envOk 0 "Seoul" [] 0 5 (CacheVal.report reportSeoul)
      (CacheVal.grouped groupedSeoul)).2 rfl (by decide) (by decide) rfl).1⟩

/-! Claim C3: propagation of boundary errors. -/

/-- Claim C3, as stated, is false for the upstream-fetch case: the error
raised at the boundary by `fetchWeatherData` is
`HttpException("City not found", 404)`, but the orchestrator's catch
block rewraps it, so the caller receives
`HttpException("Failed to fetch weather data", 500)` — not identical in
message or status to the boundary error. -/
theorem claim3_counterexample :
    fetchWeatherData (envFetchFail.current coordSeoul) =
      Except.error (JsError.http upstreamBoundaryError) ∧
    (getWeatherByCity envFetchFail 0 0 "Seoul" []).result =
      Except.error (JsError.http weatherFetchFailedError) ∧
    upstreamBoundaryError ≠ weatherFetchFailedError :=
  ⟨rfl, rfl, by decide⟩

/-- Claim C3 amended: the geocoder's `CityNotFoundError` propagates
unmodified to the caller (the geocoding call sits outside the try block);
an upstream fetch failure is translated at the boundary to
`HttpException("City not found", 404)` and then rewrapped by the
orchestrator's catch block, so the caller receives the operation's
generic 500 error instead of the boundary error.  No recovery or retry
happens at any layer. -/
theorem claim3_propagation (env : Env) (off now : Int) (city : String) (c : Cache) :
    (cacheGet c now ("weather_" ++ city) = none → env.geocode city = [] →
      (getWeatherByCity env off now city c).result =
        Except.error (JsError.http cityNotFoundError)) ∧
    (∀ coord rest, cacheGet c now ("weather_" ++ city) = none →
      env.geocode city = coord :: rest → env.current coord = Except.error () →
      fetchWeatherData (env.current coord) =
        Except.error (JsError.http upstreamBoundaryError) ∧
      (getWeatherByCity env off now city c).result =
        Except.error (JsError.http weatherFetchFailedError)) ∧
    (cacheGet c now ("forecast_" ++ city) = none → env.geocode city = [] →
      (getFiveDayForecast env off now city c).result =
        Except.error (JsError.http cityNotFoundError)) ∧
    (∀ coord rest, cacheGet c now ("forecast_" ++ city) = none →
      env.geocode city = coord :: rest → env.forecast coord = Except.error () →
      fetchWeatherData (env.forecast coord) =
        Except.error (JsError.http upstreamBoundaryError) ∧
      (getFiveDayForecast env off now city c).result =
        Except.error (JsError.http forecastFetchFailedError)) := by
  refine ⟨fun h0 hg => ?_, fun coord rest h0 hg hc => ⟨?_, ?_⟩,
    fun h0 hg => ?_, fun coord rest h0 hg hc => ⟨?_, ?_⟩⟩
  · rw [getWeatherByCity_miss env off now city c h0,
      weatherMiss_geoEmpty env off now city c _ hg]
  · rw [hc]; rfl
  · rw [getWeatherByCity_miss env off now city c h0,
      weatherMiss_computeError env off now city c _ coord rest hg
        ⟨JsError.http upstreamBoundaryError, by simp [weatherCompute, fetchWeatherData, hc]⟩]
  · rw [getFiveDayForecast_miss env off now city c h0,
      forecastMiss_geoEmpty env now city c _ hg]
  · rw [hc]; rfl
  · rw [getFiveDayForecast_miss env off now city c h0,
      forecastMiss_computeError env now city c _ coord rest hg
        ⟨JsError.http upstreamBoundaryError, by simp [forecastCompute, fetchWeatherData, hc]⟩]

/-- Witness for the amended C3: concrete collaborators with an empty
geocoding result, respectively failing upstream endpoints. -/
theorem claim3_witness :
    (getWeatherByCity envGeoEmpty 0 0 "Atlantis" []).result =
      Except.error (JsError.http cityNotFoundError) ∧
    (getWeatherByCity envFetchFail 0 0 "Busan" []).result =
      Except.error (JsError.http weatherFetchFailedError) ∧
    (getFiveDayForecast envGeoEmpty 0 0 "Atlantis" []).result =
      Except.error (JsError.http cityNotFoundError) ∧
    (getFiveDayForecast envFetchFail 0 0 "Busan" []).result =
      Except.error (JsError.http forecastFetchFailedError) :=
  ⟨(claim3_propagation envGeoEmpty 0 0 "Atlantis" []).1 rfl rfl,
   ((claim3_propagation envFetchFail 0 0 "Busan" []).2.1 coordSeoul [] rfl rfl rfl).2,
   (claim3_propagation envGeoEmpty 0 0 "Atlantis" []).2.2.1 rfl rfl,
   ((claim3_propagation envFetchFail 0 0 "Busan" []).2.2.2 coordSeoul [] rfl rfl rfl).2⟩

/-! Claim C4: failure classification and no cache write on failure. -/

/-- Claim C4 confirmed: on a key miss, an empty geocoding result makes
either operation fail with the not-found `HttpException` (404) after one
geocoder call and no upstream fetch; a failing upstream fetch makes the
operation fail with its generic internal `HttpException` (500); in all
four cases the cache is returned exactly as it was — no entry is
written. -/
theorem claim4_failures_leave_cache_unchanged (env : Env) (off now : Int) (city : String)
    (c : Cache) :
    (cacheGet c now ("weather_" ++ city) = none → env.geocode city = [] →
      getWeatherByCity env off now city c =
        ⟨Except.error (JsError.http cityNotFoundError), c, 1, 0⟩) ∧
    (∀ coord rest, cacheGet c now ("weather_" ++ city) = none →
      env.geocode city = coord :: rest → env.current coord = Except.error () →
      getWeatherByCity env off now city c =
        ⟨Except.error (JsError.http weatherFetchFailedError), c, 1, 1⟩) ∧
    (cacheGet c now ("forecast_" ++ city) = none → env.geocode city = [] →
      getFiveDayForecast env off now city c =
        ⟨Except.error (JsError.http cityNotFoundError), c, 1, 0⟩) ∧
    (∀ coord rest, cacheGet c now ("forecast_" ++ city) = none →
      env.geocode city = coord :: rest → env.forecast coord = Except.error () →
      getFiveDayForecast env off now city c =
        ⟨Except.error (JsError.http forecastFetchFailedError), c, 1, 1⟩) := by
  refine ⟨fun h0 hg => ?_, fun coord rest h0 hg hc => ?_, fun h0 hg => ?_,
    fun coord rest h0 hg hc => ?_⟩
  · rw [getWeatherByCity_miss env off now city c h0,
      weatherMiss_geoEmpty env off now city c _ hg]
  · rw [getWeatherByCity_miss env off now city c h0,
      weatherMiss_computeError env off now city c _ coord rest hg
        ⟨JsError.http upstreamBoundaryError, by simp [weatherCompute, fetchWeatherData, hc]⟩]
  · rw [getFiveDayForecast_miss env off now city c h0,
      forecastMiss_geoEmpty env now city c _ hg]
  · rw [getFiveDayForecast_miss env off now city c h0,
      forecastMiss_computeError env now city c _ coord rest hg
        ⟨JsError.http upstreamBoundaryError, by simp [forecastCompute, fetchWeatherData, hc]⟩]

/-- Witness for C4 at concrete collaborators, starting from a non-empty
cache for an unrelated key, which is returned untouched. -/
theorem claim4_witness :
    getWeatherByCity envGeoEmpty 0 0 "Atlantis" [("weather_X", ⟨CacheVal.jsNull, 9⟩)] =
      ⟨Except.error (JsError.http cityNotFoundError),
        [("weather_X", ⟨CacheVal.jsNull, 9⟩)], 1, 0⟩ ∧
    getWeatherByCity envFetchFail 0 0 "Busan" [] =
      ⟨Except.error (JsError.http weatherFetchFailedError), [], 1, 1⟩ ∧
    getFiveDayForecast envGeoEmpty 0 0 "Atlantis" [] =
      ⟨Except.error (JsError.http cityNotFoundError), [], 1, 0⟩ ∧
    getFiveDayForecast envFetchFail 0 0 "Busan" [] =
      ⟨Except.error (JsError.http forecastFetchFailedError), [], 1, 1⟩ :=
  ⟨(claim4_failures_leave_cache_unchanged envGeoEmpty 0 0 "Atlantis"
      [("weather_X", ⟨CacheVal.jsNull, 9⟩)]).1 (by decide) rfl,
   (claim4_failures_leave_cache_unchanged envFetchFail 0 0 "Busan" []).2.1
      coordSeoul [] rfl rfl rfl,
   (claim4_failures_leave_cache_unchanged envGeoEmpty 0 0 "Atlantis" []).2.2.1 rfl rfl,
   (claim4_failures_leave_cache_unchanged envFetchFail 0 0 "Busan" []).2.2.2
      coordSeoul [] rfl rfl rfl⟩

/-! Claim C7: the Seoul formatting scenario. -/

/-- Claim C7 confirmed: on the payload with `temp = 21.456`,
`humidity = 60` and no rain/snow sub-objects, the formatter yields
`currentTemp = "21.46℃"`, `currentHumi = "60%"`, `rainfall = "0mm/h"`. -/
theorem claim7_seoul_scenario :
    (formatWeatherData 0 rawSeoul).map (fun r => (r.currentTemp, r.currentHumi, r.rainfall)) =
      Except.ok ("21.46℃", "60%", "0mm/h") := rfl

/-! Claim C10: empty weather-condition list. -/

/-- Claim C10 confirmed: when the current-weather payload's condition
list is empty, the formatter's first-element access fails inside the
operation's try block, so the caller receives the same generic
`HttpException("Failed to fetch weather data", 500)` as for an upstream
fetch failure, and the cache is returned unchanged. -/
theorem claim10_empty_condition_list (env : Env) (off now : Int) (city : String) (c : Cache)
    (coord : Coord) (rest : List Coord) (data : RawCurrent)
    (h0 : cacheGet c now ("weather_" ++ city) = none)
    (hg : env.geocode city = coord :: rest)
    (hc : env.current coord = Except.ok data)
    (hw : data.weather = []) :
    getWeatherByCity env off now city c =
      ⟨Except.error (JsError.http weatherFetchFailedError), c, 1, 1⟩ := by
  rw [getWeatherByCity_miss env off now city c h0]
  exact weatherMiss_computeError env off now city c _ coord rest hg
    ⟨JsError.typeError, by simp [weatherCompute, fetchWeatherData, hc, formatWeatherData, hw]⟩

/-- Witness for C10: collaborators whose current-weather endpoint returns
`rawNoCond` (empty condition list). -/
theorem claim10_witness :
    getWeatherByCity envNoCond 0 0 "Seoul" [] =
      ⟨Except.error (JsError.http weatherFetchFailedError), [], 1, 1⟩ :=
  claim10_empty_condition_list envNoCond 0 0 "Seoul" [] coordSeoul [] rawNoCond
    rfl rfl rfl rfl

/-! Helper lemmas about forecast grouping. -/

theorem keys_insertEntry (acc : GroupedForecast) (k : String) (e : ForecastEntry) :
    (insertEntry acc k e).map Prod.fst =
      if k ∈ acc.map Prod.fst then acc.map Prod.fst else acc.map Prod.fst ++ [k] := by
  induction acc with
  | nil => simp [insertEntry]
  | cons p rest ih =>
    obtain ⟨k0, es⟩ := p
    by_cases h : k0 = k
    · subst h
      simp [insertEntry]
    · have hne : ¬ k = k0 := fun hk => h hk.symm
      by_cases hm : k ∈ rest.map Prod.fst
      · simp [insertEntry, if_neg h, ih, hm, List.mem_cons]
      · simp [insertEntry, if_neg h, ih, hm, List.mem_cons, hne]

theorem valsAt_insertEntry_self (acc : GroupedForecast) (k : String) (e : ForecastEntry) :
    valsAt (insertEntry acc k e) k = valsAt acc k ++ [e] := by
  induction acc with
  | nil => simp [insertEntry, valsAt, List.find?]
  | cons p rest ih =>
    obtain ⟨k0, es⟩ := p
    by_cases h : k0 = k
    · subst h
      simp [insertEntry, valsAt, List.find?]
    · have hb : (k0 == k) = false := by simp [h]
      simp [insertEntry, if_neg h, valsAt, List.find?, hb] at ih ⊢
      exact ih

theorem valsAt_insertEntry_other (acc : GroupedForecast) (k k2 : String) (e : ForecastEntry)
    (hne : k2 ≠ k) :
    valsAt (insertEntry acc k e) k2 = valsAt acc k2 := by
  induction acc with
  | nil =>
    have hb : (k == k2) = false := by simp; exact fun h => hne h.symm
    simp [insertEntry, valsAt, List.find?, hb]
  | cons p rest ih =>
    obtain ⟨k0, es⟩ := p
    by_cases h : k0 = k
    · subst h
      have hb : (k0 == k2) = false := by
        simp
        exact fun hh => hne hh.symm
      simp [insertEntry, valsAt, List.find?, hb]
    · by_cases h2 : k0 = k2
      · subst h2
        simp [insertEntry, if_neg h, valsAt, List.find?]
      · have hb : (k0 == k2) = false := by simp [h2]
        simp [insertEntry, if_neg h, valsAt, List.find?, hb] at ih ⊢
        exact ih

theorem sumLens_insertEntry (acc : GroupedForecast) (k : String) (e : ForecastEntry) :
    ((insertEntry acc k e).map (fun p => p.2.length)).sum =
      (acc.map (fun p => p.2.length)).sum + 1 := by
  induction acc with
  | nil => simp [insertEntry]
  | cons p rest ih =>
    obtain ⟨k0, es⟩ := p
    by_cases h : k0 = k
    · subst h
      simp [insertEntry]
      omega
    · simp [insertEntry, if_neg h, ih]
      omega

theorem except_bind_ok {α β : Type} (a : α) (f : α → Except JsError β) :
    (Except.ok a >>= f : Except JsError β) = f a := rfl

theorem except_pure_eq_ok {α : Type} (a : α) : (pure a : Except JsError α) = Except.ok a := rfl

theorem except_map_ok {α β : Type} (f : α → β) (a : α) :
    Except.map f (Except.ok a : Except JsError α) = Except.ok (f a) := rfl

theorem filter_ne_filter_not_mem (L s : List String) (k : String) (hk : k ∈ s) :
    (L.filter (fun d => d ≠ k)).filter (fun d => d ∉ s) = L.filter (fun d => d ∉ s) := by
  rw [List.filter_filter]
  apply List.filter_congr
  intro d _
  by_cases hd : d = k
  · subst hd
    simp [hk]
  · simp [hd]

theorem filter_not_mem_append_singleton (L s : List String) (k : String) :
    L.filter (fun d => d ∉ s ++ [k]) = (L.filter (fun d => d ≠ k)).filter (fun d => d ∉ s) := by
  rw [List.filter_filter]
  apply List.filter_congr
  intro d _
  by_cases hd : d = k
  · subst hd
    simp [List.mem_append]
  · by_cases hs : d ∈ s <;> simp [hd, hs, List.mem_append]

theorem groupAux_keys (items : List RawForecastItem) :
    ∀ acc g, groupAux acc items = Except.ok g →
      g.map Prod.fst = acc.map Prod.fst ++
        (firstOccur (items.map (fun i => dtDateKey i.dt_txt))).filter
          (fun d => d ∉ acc.map Prod.fst) := by
  induction items with
  | nil =>
    intro acc g h
    simp [groupAux] at h
    subst h
    simp [firstOccur]
  | cons i rest ih =>
    intro acc g h
    cases hf : formatForecastData i with
    | error e => simp [groupAux, hf] at h
    | ok entry =>
      simp only [groupAux, hf] at h
      rw [ih (insertEntry acc (dtDateKey i.dt_txt) entry) g h, keys_insertEntry]
      have h1 : firstOccur (List.map (fun j => dtDateKey j.dt_txt) (i :: rest)) =
          dtDateKey i.dt_txt ::
            (firstOccur (List.map (fun j => dtDateKey j.dt_txt) rest)).filter
              (fun d => d ≠ dtDateKey i.dt_txt) := rfl
      by_cases hm : dtDateKey i.dt_txt ∈ acc.map Prod.fst
      · rw [if_pos hm, h1, List.filter_cons,
          if_neg (by simp [hm] :
            ¬ (decide (dtDateKey i.dt_txt ∉ List.map Prod.fst acc) = true)),
          filter_ne_filter_not_mem _ _ _ hm]
      · rw [if_neg hm, h1, List.filter_cons,
          if_pos (by simp [hm] :
            decide (dtDateKey i.dt_txt ∉ List.map Prod.fst acc) = true),
          filter_not_mem_append_singleton]
        simp [List.append_assoc]

theorem groupAux_size (items : List RawForecastItem) :
    ∀ acc g, groupAux acc items = Except.ok g →
      (g.map (fun p => p.2.length)).sum = (acc.map (fun p => p.2.length)).sum + items.length := by
  induction items with
  | nil =>
    intro acc g h
    simp [groupAux] at h
    subst h
    simp
  | cons i rest ih =>
    intro acc g h
    cases hf : formatForecastData i with
    | error e => simp [groupAux, hf] at h
    | ok entry =>
      simp only [groupAux, hf] at h
      rw [ih _ g h, sumLens_insertEntry]
      simp
      omega

theorem groupAux_vals (items : List RawForecastItem) :
    ∀ acc g, groupAux acc items = Except.ok g → ∀ k,
      ((items.filter (fun i => dtDateKey i.dt_txt = k)).mapM formatForecastData).map
        (fun w => valsAt acc k ++ w) = Except.ok (valsAt g k) := by
  induction items with
  | nil =>
    intro acc g h k
    simp [groupAux] at h
    subst h
    simp [List.mapM.loop, except_pure_eq_ok, except_map_ok]
  | cons i rest ih =>
    intro acc g h k
    cases hf : formatForecastData i with
    | error e => simp [groupAux, hf] at h
    | ok entry =>
      simp only [groupAux, hf] at h
      have IH := ih (insertEntry acc (dtDateKey i.dt_txt) entry) g h k
      by_cases hk : dtDateKey i.dt_txt = k
      · subst hk
        rw [valsAt_insertEntry_self] at IH
        cases hm : (rest.filter
            (fun j => dtDateKey j.dt_txt = dtDateKey i.dt_txt)).mapM formatForecastData with
        | error e2 => rw [hm] at IH; simp [Except.map] at IH
        | ok ws =>
          rw [hm] at IH
          simp only [Except.map, Except.ok.injEq] at IH
          have hcons : List.filter (fun j => dtDateKey j.dt_txt = dtDateKey i.dt_txt) (i :: rest) =
              i :: List.filter (fun j => dtDateKey j.dt_txt = dtDateKey i.dt_txt) rest := by
            simp [List.filter_cons]
          rw [hcons, List.mapM_cons, hf, hm, except_bind_ok, except_bind_ok,
            except_pure_eq_ok, except_map_ok, ← IH]
          simp [List.append_assoc]
      · have hne : k ≠ dtDateKey i.dt_txt := fun hh => hk hh.symm
        rw [valsAt_insertEntry_other acc _ k entry hne] at IH
        simpa [List.filter_cons, hk] using IH

/-! Claim C5: the grouping property. -/

/-- Claim C5 confirmed: when `groupForecastByDate` succeeds, (i) its keys
are exactly the distinct calendar-date strings of the input in
first-occurrence order, (ii) the entries under each key are exactly the
formatted input items carrying that date, in input order (so every input
item contributes exactly one formatted entry), and (iii) the grouped
entries, taken together, equal the input in size. -/
theorem claim5_grouping (items : List RawForecastItem) (g : GroupedForecast)
    (h : groupForecastByDate items = Except.ok g) :
    g.map Prod.fst = firstOccur (items.map (fun i => dtDateKey i.dt_txt)) ∧
    (∀ k, (items.filter (fun i => dtDateKey i.dt_txt = k)).mapM formatForecastData =
      Except.ok (valsAt g k)) ∧
    (g.map (fun p => p.2.length)).sum = items.length := by
  refine ⟨?_, fun k => ?_, ?_⟩
  · have hk := groupAux_keys items [] g h
    simpa using hk
  · have hv := groupAux_vals items [] g h k
    cases hm : (items.filter (fun i => dtDateKey i.dt_txt = k)).mapM formatForecastData with
    | error e =>
      rw [hm] at hv
      simp [Except.map] at hv
    | ok ws =>
      rw [hm] at hv
      simp only [Except.map, Except.ok.injEq] at hv
      rw [← hv]
      simp [valsAt, List.find?]
  · have hs := groupAux_size items [] g h
    simpa using hs

/-- Witness for C5: the scenario with two items dated 2024-05-01 and one
dated 2024-05-02, grouped into two keys in first-occurrence order. -/
theorem claim5_witness :
    groupForecastByDate forecastItems = Except.ok groupedSeoul ∧
    groupedSeoul.map Prod.fst =
      firstOccur (forecastItems.map (fun i => dtDateKey i.dt_txt)) ∧
    (forecastItems.filter (fun i => dtDateKey i.dt_txt = "5/1/2024")).mapM formatForecastData =
      Except.ok (valsAt groupedSeoul "5/1/2024") ∧
    (groupedSeoul.map (fun p => p.2.length)).sum = forecastItems.length :=
  ⟨rfl,
   (claim5_grouping forecastItems groupedSeoul rfl).1,
   (claim5_grouping forecastItems groupedSeoul rfl).2.1 "5/1/2024",
   (claim5_grouping forecastItems groupedSeoul rfl).2.2⟩

/-! Claim C6: field formatting. -/

/-- Claim C6, as stated, is false for the rate fields: `rainfall` is
rendered as the raw JS number (here `0.5 ↦ "0.5mm/h"`), not with
two-decimal precision (`toFixed(2)` would give `"0.50mm/h"`). -/
theorem claim6_counterexample :
    (formatWeatherData 0 rawRainy).map (fun r => r.rainfall) = Except.ok "0.5mm/h" ∧
    "0.5mm/h" ≠ toFixed2 ⟨5, 1⟩ ++ "mm/h" :=
  ⟨rfl, by decide⟩

/-- Claim C6 amended: in both report shapes, the temperature fields and
the wind speed are two-decimal renderings with fixed suffixes (`℃`,
`m/s`), while `rainfall`/`snowfall` are the raw number rendering of the
`1h` accumulation with suffix `mm/h` (not normalised to two decimals),
defaulting to `"0mm/h"` when the rain/snow field is absent. -/
theorem claim6_field_formats (off : Int) (data : RawCurrent) (item : RawForecastItem)
    (r : Report) (en : ForecastEntry)
    (hr : formatWeatherData off data = Except.ok r)
    (he : formatForecastData item = Except.ok en) :
    (r.currentTemp = toFixed2 data.main.temp ++ "℃" ∧
     r.apparentTemp = toFixed2 data.main.feels_like ++ "℃" ∧
     r.minTemp = toFixed2 data.main.temp_min ++ "℃" ∧
     r.maxTemp = toFixed2 data.main.temp_max ++ "℃" ∧
     r.windSpeed = toFixed2 data.wind.speed ++ "m/s" ∧
     r.rainfall = jsToString (jsOrZero data.rain1h) ++ "mm/h" ∧
     r.snowfall = jsToString (jsOrZero data.snow1h) ++ "mm/h" ∧
     (data.rain1h = none → r.rainfall = "0mm/h") ∧
     (data.snow1h = none → r.snowfall = "0mm/h")) ∧
    (en.currentTemp = toFixed2 item.main.temp ++ "℃" ∧
     en.apparentTemp = toFixed2 item.main.feels_like ++ "℃" ∧
     en.minTemp = toFixed2 item.main.temp_min ++ "℃" ∧
     en.maxTemp = toFixed2 item.main.temp_max ++ "℃" ∧
     en.windSpeed = toFixed2 item.wind.speed ++ "m/s" ∧
     en.rainfall = jsToString (jsOrZero item.rain1h) ++ "mm/h" ∧
     en.snowfall = jsToString (jsOrZero item.snow1h) ++ "mm/h" ∧
     (item.rain1h = none → en.rainfall = "0mm/h") ∧
     (item.snow1h = none → en.snowfall = "0mm/h")) := by
  constructor
  · cases hw : data.weather with
    | nil => simp [formatWeatherData, hw] at hr
    | cons w ws =>
      simp only [formatWeatherData, hw, Except.ok.injEq] at hr
      subst hr
      refine ⟨rfl, rfl, rfl, rfl, rfl, rfl, rfl, fun hn => ?_, fun hn => ?_⟩ <;>
        (simp [hn, jsOrZero, jsToString, stripZeros]; rfl)
  · cases hw : item.weather with
    | nil => simp [formatForecastData, hw] at he
    | cons w ws =>
      simp only [formatForecastData, hw, Except.ok.injEq] at he
      subst he
      refine ⟨rfl, rfl, rfl, rfl, rfl, rfl, rfl, fun hn => ?_, fun hn => ?_⟩ <;>
        (simp [hn, jsOrZero, jsToString, stripZeros]; rfl)

/-- Witness for the amended C6: the instantiated conclusion at the rainy
Seoul payload and a concrete forecast item. -/
theorem claim6_witness :
    (reportRainy.currentTemp = toFixed2 rawRainy.main.temp ++ "℃" ∧
     reportRainy.apparentTemp = toFixed2 rawRainy.main.feels_like ++ "℃" ∧
     reportRainy.minTemp = toFixed2 rawRainy.main.temp_min ++ "℃" ∧
     reportRainy.maxTemp = toFixed2 rawRainy.main.temp_max ++ "℃" ∧
     reportRainy.windSpeed = toFixed2 rawRainy.wind.speed ++ "m/s" ∧
     reportRainy.rainfall = jsToString (jsOrZero rawRainy.rain1h) ++ "mm/h" ∧
     reportRainy.snowfall = jsToString (jsOrZero rawRainy.snow1h) ++ "mm/h" ∧
     (rawRainy.rain1h = none → reportRainy.rainfall = "0mm/h") ∧
     (rawRainy.snow1h = none → reportRainy.snowfall = "0mm/h")) ∧
    ((entryOf ⟨2024, 5, 1, 0, 0, 0⟩).currentTemp =
        toFixed2 (itemOf ⟨2024, 5, 1, 0, 0, 0⟩).main.temp ++ "℃" ∧
     (entryOf ⟨2024, 5, 1, 0, 0, 0⟩).apparentTemp =
        toFixed2 (itemOf ⟨2024, 5, 1, 0, 0, 0⟩).main.feels_like ++ "℃" ∧
     (entryOf ⟨2024, 5, 1, 0, 0, 0⟩).minTemp =
        toFixed2 (itemOf ⟨2024, 5, 1, 0, 0, 0⟩).main.temp_min ++ "℃" ∧
     (entryOf ⟨2024, 5, 1, 0, 0, 0⟩).maxTemp =
        toFixed2 (itemOf ⟨2024, 5, 1, 0, 0, 0⟩).main.temp_max ++ "℃" ∧
     (entryOf ⟨2024, 5, 1, 0, 0, 0⟩).windSpeed =
        toFixed2 (itemOf ⟨2024, 5, 1, 0, 0, 0⟩).wind.speed ++ "m/s" ∧
     (entryOf ⟨2024, 5, 1, 0, 0, 0⟩).rainfall =
        jsToString (jsOrZero (itemOf ⟨2024, 5, 1, 0, 0, 0⟩).rain1h) ++ "mm/h" ∧
     (entryOf ⟨2024, 5, 1, 0, 0, 0⟩).snowfall =
        jsToString (jsOrZero (itemOf ⟨2024, 5, 1, 0, 0, 0⟩).snow1h) ++ "mm/h" ∧
     ((itemOf ⟨2024, 5, 1, 0, 0, 0⟩).rain1h = none →
        (entryOf ⟨2024, 5, 1, 0, 0, 0⟩).rainfall = "0mm/h") ∧
     ((itemOf ⟨2024, 5, 1, 0, 0, 0⟩).snow1h = none →
        (entryOf ⟨2024, 5, 1, 0, 0, 0⟩).snowfall = "0mm/h")) :=
  claim6_field_formats 0 rawRainy (itemOf ⟨2024, 5, 1, 0, 0, 0⟩) reportRainy
    (entryOf ⟨2024, 5, 1, 0, 0, 0⟩) rfl rfl

/-! Claim C8: sunrise/sunset timezone convention. -/

/-- Claim C8, as stated, is false: the rendered sunrise/sunset clock time
depends on the system timezone.  At timestamp 0 the rendering under a UTC
system timezone differs from the rendering under a UTC-5 system
timezone. -/
theorem claim8_counterexample : formatUnixTime 0 0 ≠ formatUnixTime (-18000) 0 := by decide

/-- Claim C8 amended: `formatUnixTime` shifts the provider timestamp by
exactly +9 hours and then renders it in the system's local timezone, so
the output coincides with a fixed-UTC+9 (KST) clock rendering exactly
when the system timezone is UTC; in general it depends on the system
offset. -/
theorem claim8_shift_then_local_render (off ts : Int) :
    formatUnixTime off ts = renderLocal off (ts + 9 * 3600) ∧
    formatUnixTime 0 ts = clockOf (ts + 9 * 3600) := by
  have key : addNineHours off ts = ts + 9 * 3600 := by
    unfold addNineHours jsSetHours
    ring
  have key0 : addNineHours 0 ts = ts + 9 * 3600 := by
    unfold addNineHours jsSetHours
    ring
  constructor
  · simp [formatUnixTime, key]
  · simp [formatUnixTime, key0, renderLocal]

/-! Claim C9: cache key/value type invariant. -/

theorem weather_key_ne_forecast_key (a b : String) : "weather_" ++ a ≠ "forecast_" ++ b := by
  intro h
  have h2 := congrArg String.data h
  rw [String.data_append, String.data_append,
    show "weather_".data = ['w', 'e', 'a', 't', 'h', 'e', 'r', '_'] from rfl,
    show "forecast_".data = ['f', 'o', 'r', 'e', 'c', 'a', 's', 't', '_'] from rfl] at h2
  simp only [List.cons_append] at h2
  injection h2 with hc _
  exact absurd hc (by decide)

theorem weatherMiss_cache_cases (env : Env) (off now : Int) (city : String) (c : Cache)
    (k : String) :
    (weatherMiss env off now city c k).cache = c ∨
    ∃ r, (weatherMiss env off now city c k).cache =
      cacheSet c k (CacheVal.report r) now cacheTTL := by
  unfold weatherMiss
  cases getCoordinatesByCity env city with
  | error e => left; rfl
  | ok coord =>
    dsimp only
    cases weatherCompute env off coord with
    | error e => left; rfl
    | ok r => right; exact ⟨r, rfl⟩

theorem forecastMiss_cache_cases (env : Env) (now : Int) (city : String) (c : Cache)
    (k : String) :
    (forecastMiss env now city c k).cache = c ∨
    ∃ g, (forecastMiss env now city c k).cache =
      cacheSet c k (CacheVal.grouped g) now cacheTTL := by
  unfold forecastMiss
  cases getCoordinatesByCity env city with
  | error e => left; rfl
  | ok coord =>
    dsimp only
    cases forecastCompute env coord with
    | error e => left; rfl
    | ok g => right; exact ⟨g, rfl⟩

theorem getWeatherByCity_cache_cases (env : Env) (off now : Int) (city : String) (c : Cache) :
    (getWeatherByCity env off now city c).cache = c ∨
    ∃ r, (getWeatherByCity env off now city c).cache =
      cacheSet c ("weather_" ++ city) (CacheVal.report r) now cacheTTL := by
  unfold getWeatherByCity
  cases cacheGet c now ("weather_" ++ city) with
  | none => exact weatherMiss_cache_cases env off now city c _
  | some v =>
    cases ht : v.truthy with
    | true => left; simp [ht]
    | false =>
      simp only [ht, Bool.false_eq_true, if_false]
      exact weatherMiss_cache_cases env off now city c _

theorem getFiveDayForecast_cache_cases (env : Env) (off now : Int) (city : String) (c : Cache) :
    (getFiveDayForecast env off now city c).cache = c ∨
    ∃ g, (getFiveDayForecast env off now city c).cache =
      cacheSet c ("forecast_" ++ city) (CacheVal.grouped g) now cacheTTL := by
  unfold getFiveDayForecast
  cases cacheGet c now ("forecast_" ++ city) with
  | none => exact forecastMiss_cache_cases env now city c _
  | some v =>
    cases ht : v.truthy with
    | true => left; simp [ht]
    | false =>
      simp only [ht, Bool.false_eq_true, if_false]
      exact forecastMiss_cache_cases env now city c _

theorem cacheWellTyped_set_report (c : Cache) (city : String) (r : Report) (now ttl : Int)
    (hc : cacheWellTyped c) :
    cacheWellTyped (cacheSet c ("weather_" ++ city) (CacheVal.report r) now ttl) := by
  intro p hp
  unfold cacheSet at hp
  rcases List.mem_cons.mp hp with rfl | hmem
  · constructor
    · intro _
      exact ⟨r, rfl⟩
    · rintro ⟨c2, hc2⟩
      exact absurd hc2 (weather_key_ne_forecast_key city c2)
  · exact hc p hmem

theorem cacheWellTyped_set_grouped (c : Cache) (city : String) (g : GroupedForecast)
    (now ttl : Int) (hc : cacheWellTyped c) :
    cacheWellTyped (cacheSet c ("forecast_" ++ city) (CacheVal.grouped g) now ttl) := by
  intro p hp
  unfold cacheSet at hp
  rcases List.mem_cons.mp hp with rfl | hmem
  · constructor
    · rintro ⟨c2, hc2⟩
      exact absurd hc2.symm (weather_key_ne_forecast_key c2 city)
    · intro _
      exact ⟨g, rfl⟩
  · exact hc p hmem

theorem applyCall_preserves_wellTyped (env : Env) (off : Int) (c : Cache) (k : CallSpec)
    (hc : cacheWellTyped c) : cacheWellTyped (applyCall env off c k) := by
  cases k with
  | weather city now =>
    show cacheWellTyped (getWeatherByCity env off now city c).cache
    rcases getWeatherByCity_cache_cases env off now city c with hcc | ⟨r, hcc⟩
    · rw [hcc]; exact hc
    · rw [hcc]; exact cacheWellTyped_set_report c city r now cacheTTL hc
  | forecast city now =>
    show cacheWellTyped (getFiveDayForecast env off now city c).cache
    rcases getFiveDayForecast_cache_cases env off now city c with hcc | ⟨g, hcc⟩
    · rw [hcc]; exact hc
    · rw [hcc]; exact cacheWellTyped_set_grouped c city g now cacheTTL hc

theorem runCalls_preserves_wellTyped (env : Env) (off : Int) (calls : List CallSpec) :
    ∀ c, cacheWellTyped c → cacheWellTyped (runCalls env off calls c) := by
  induction calls with
  | nil => intro c hc; exact hc
  | cons k rest ih =>
    intro c hc
    exact ih _ (applyCall_preserves_wellTyped env off c k hc)

/-- Claim C9 confirmed: in every cache state reachable from the empty
cache by any sequence of `getWeatherByCity` and `getFiveDayForecast`
calls (under arbitrary collaborators, timezone offset and call times),
every binding whose key has the `weather_` prefix holds a
current-weather report and every binding whose key has the `forecast_`
prefix holds a grouped forecast; the two are never mixed, since no key
carries both prefixes. -/
theorem claim9_cache_value_types (env : Env) (off : Int) (calls : List CallSpec) :
    cacheWellTyped (runCalls env off calls []) :=
  runCalls_preserves_wellTyped env off calls []
    (fun p hp => absurd hp (List.not_mem_nil p))
